import Mathlib

/-!
Verification of the Zepto ETL core (`server/etl/data_processor.py` and
`server/etl/etl_pipeline.py`) against its natural-language specification.

The pandas tables are embedded as Lean lists of records.  Numeric cells are
rationals (`ℚ`); cells that can be missing (pandas `NaN`) before
normalization are `Option ℚ`, and all comparisons against possibly-missing
values follow the pandas convention that a comparison with `NaN` is `false`.
Column-level operations (`df[mask]`, `df.loc[mask, col] = ...`) become
`List.filter` and `List.map` of per-row functions, which is exactly their
row-wise semantics since every mask in the source is computed row-wise.
-/

namespace Zepto

/-- One record of the canonical catalog schema, after normalization
(`transform_data`): every field is concretely typed, no cell is missing.
Mirrors the columns used by `DataProcessor`. -/
structure Row where
  category : String
  name : String
  mrp : ℚ
  discount_percent : ℚ
  available_quantity : ℚ
  discounted_selling_price : ℚ
  weight_in_gms : ℚ
  out_of_stock : Bool
  quantity : ℚ
deriving DecidableEq, Repr

/-- Round half to even, the rounding used by `pandas.Series.round()`
(numpy rounding).  `⌊q⌋` when the fractional part is below 1/2, `⌊q⌋ + 1`
when above, and the even neighbour on a tie. -/
def roundHalfEven (q : ℚ) : ℤ :=
  let f := ⌊q⌋
  let frac := q - f
  if frac < 1/2 then f
  else if 1/2 < frac then f + 1
  else if f % 2 = 0 then f else f + 1

theorem abs_roundHalfEven_sub_le (q : ℚ) : |((roundHalfEven q : ℤ) : ℚ) - q| ≤ 1/2 := by
  have h0 : (⌊q⌋ : ℚ) ≤ q := Int.floor_le q
  have h1 : q < (⌊q⌋ : ℚ) + 1 := Int.lt_floor_add_one q
  unfold roundHalfEven
  simp only
  split
  · rename_i h
    rw [abs_le]
    constructor <;> [linarith; linarith]
  · rename_i h
    push_neg at h
    split
    · rename_i h2
      rw [abs_le]
      push_cast
      constructor <;> [linarith; linarith]
    · rename_i h2
      push_neg at h2
      have heq : q - (⌊q⌋ : ℚ) = 1/2 := le_antisymm h2 h
      split
      · rw [abs_le]
        constructor <;> [linarith; linarith]
      · rw [abs_le]
        push_cast
        constructor <;> [linarith; linarith]

/-! ## Rule Engine (`DataProcessor.validate_business_rules`)

Rule 1 removes rows with `mrp < discounted_selling_price`; rules 2-4 are
row-wise field repairs.  Each `.loc[mask, col] = v` of the source becomes a
`List.map` of the corresponding conditional row update, and each
`mask.sum()` becomes the length of the corresponding `List.filter`. -/

/-- `calculated_discount` of rule 2:
`((mrp - discounted_selling_price) / mrp) * 100`. -/
def calcDiscount (r : Row) : ℚ :=
  ((r.mrp - r.discounted_selling_price) / r.mrp) * 100

/-- Rule 2 row repair: where `abs(discount_percent - calculated_discount) > 1`,
overwrite `discount_percent` with `calculated_discount.round().astype(int)`. -/
def rule2Row (r : Row) : Row :=
  if |r.discount_percent - calcDiscount r| > 1 then
    { r with discount_percent := ((roundHalfEven (calcDiscount r) : ℤ) : ℚ) }
  else r

/-- Rule 3 row repair: where `out_of_stock == True` and
`available_quantity > 0`, set `available_quantity = 0`. -/
def rule3Row (r : Row) : Row :=
  if r.out_of_stock = true ∧ r.available_quantity > 0 then
    { r with available_quantity := 0 }
  else r

/-- Rule 4 row repair: where `available_quantity == 0` and
`out_of_stock == False`, set `out_of_stock = True`. -/
def rule4Row (r : Row) : Row :=
  if r.available_quantity = 0 ∧ r.out_of_stock = false then
    { r with out_of_stock := true }
  else r

/-- `DataProcessor.validate_business_rules`: apply rules 1-4 in order and
collect one message per rule that changed at least one row. -/
def validate_business_rules (df : List Row) : List Row × List String :=
  let invalidCount := (df.filter fun r => decide (r.mrp < r.discounted_selling_price)).length
  let msgs1 := if invalidCount > 0 then
    ["Removed " ++ toString invalidCount ++ " products with MRP < Selling Price"] else []
  let df1 := df.filter fun r => !decide (r.mrp < r.discounted_selling_price)
  let mismatchCount := (df1.filter fun r => decide (|r.discount_percent - calcDiscount r| > 1)).length
  let msgs2 := if mismatchCount > 0 then
    ["Fixed " ++ toString mismatchCount ++ " products with incorrect discount percentages"] else []
  let df2 := df1.map rule2Row
  let stockCount := (df2.filter fun r => r.out_of_stock && decide (r.available_quantity > 0)).length
  let msgs3 := if stockCount > 0 then
    ["Fixed " ++ toString stockCount ++ " out-of-stock products with non-zero availability"] else []
  let df3 := df2.map rule3Row
  let zeroCount := (df3.filter fun r => decide (r.available_quantity = 0) && !r.out_of_stock).length
  let msgs4 := if zeroCount > 0 then
    ["Marked " ++ toString zeroCount ++ " zero-quantity products as out of stock"] else []
  let df4 := df3.map rule4Row
  (df4, msgs1 ++ msgs2 ++ msgs3 ++ msgs4)

/-- The per-row repair rules 2-4 applied in order, as the composite that each
surviving row undergoes. -/
def repairRow (r : Row) : Row := rule4Row (rule3Row (rule2Row r))

theorem validate_fst_eq (df : List Row) :
    (validate_business_rules df).1 =
      (df.filter fun r => decide (r.discounted_selling_price ≤ r.mrp)).map repairRow := by
  unfold validate_business_rules repairRow
  simp only [List.map_map]
  have hfilter : (df.filter fun r => !decide (r.mrp < r.discounted_selling_price)) =
      df.filter fun r => decide (r.discounted_selling_price ≤ r.mrp) := by
    apply List.filter_congr
    intro r _
    rw [← decide_not]
    exact decide_eq_decide.mpr not_lt
  rw [hfilter]
  rfl

theorem rule2Row_shape (r : Row) : ∃ d, rule2Row r = { r with discount_percent := d } := by
  unfold rule2Row
  split
  · exact ⟨_, rfl⟩
  · exact ⟨r.discount_percent, rfl⟩

theorem rule3Row_shape (r : Row) : ∃ a, rule3Row r = { r with available_quantity := a } := by
  unfold rule3Row
  split
  · exact ⟨_, rfl⟩
  · exact ⟨r.available_quantity, rfl⟩

theorem rule4Row_shape (r : Row) : ∃ o, rule4Row r = { r with out_of_stock := o } := by
  unfold rule4Row
  split
  · exact ⟨_, rfl⟩
  · exact ⟨r.out_of_stock, rfl⟩

theorem repairRow_shape (r : Row) :
    ∃ d a o, repairRow r =
      { r with discount_percent := d, available_quantity := a, out_of_stock := o } := by
  obtain ⟨d, h2⟩ := rule2Row_shape r
  obtain ⟨a, h3⟩ := rule3Row_shape (rule2Row r)
  obtain ⟨o, h4⟩ := rule4Row_shape (rule3Row (rule2Row r))
  refine ⟨d, a, o, ?_⟩
  rw [repairRow, h4, h3, h2]

theorem repairRow_mrp (r : Row) : (repairRow r).mrp = r.mrp := by
  obtain ⟨d, a, o, h⟩ := repairRow_shape r
  rw [h]

theorem repairRow_dsp (r : Row) :
    (repairRow r).discounted_selling_price = r.discounted_selling_price := by
  obtain ⟨d, a, o, h⟩ := repairRow_shape r
  rw [h]

theorem calcDiscount_repairRow (r : Row) : calcDiscount (repairRow r) = calcDiscount r := by
  unfold calcDiscount
  rw [repairRow_mrp, repairRow_dsp]

theorem repairRow_dp (r : Row) :
    (repairRow r).discount_percent = (rule2Row r).discount_percent := by
  obtain ⟨a, h3⟩ := rule3Row_shape (rule2Row r)
  obtain ⟨o, h4⟩ := rule4Row_shape (rule3Row (rule2Row r))
  rw [repairRow, h4, h3]

theorem rule2Row_aq (r : Row) : (rule2Row r).available_quantity = r.available_quantity := by
  obtain ⟨d, h⟩ := rule2Row_shape r
  rw [h]

theorem rule2Row_oos (r : Row) : (rule2Row r).out_of_stock = r.out_of_stock := by
  obtain ⟨d, h⟩ := rule2Row_shape r
  rw [h]

/-- After rule 2's repair the row's declared discount is within the 1-point
tolerance of the calculated discount. -/
theorem rule2Row_discount_close (r : Row) :
    |(rule2Row r).discount_percent - calcDiscount r| ≤ 1 := by
  unfold rule2Row
  split
  · have h := abs_roundHalfEven_sub_le (calcDiscount r)
    show |((roundHalfEven (calcDiscount r) : ℤ) : ℚ) - calcDiscount r| ≤ 1
    linarith
  · rename_i h
    push_neg at h
    exact h

/-- After rules 3 and 4 (in that order) neither rule's trigger condition holds
any more, whatever the incoming flag/quantity combination was. -/
theorem stock_stable (r : Row) :
    ¬((rule4Row (rule3Row r)).out_of_stock = true ∧
        (rule4Row (rule3Row r)).available_quantity > 0) ∧
    ¬((rule4Row (rule3Row r)).available_quantity = 0 ∧
        (rule4Row (rule3Row r)).out_of_stock = false) := by
  unfold rule3Row
  by_cases h3 : r.out_of_stock = true ∧ r.available_quantity > 0
  · rw [if_pos h3]
    unfold rule4Row
    rw [if_neg (fun hc => by rw [h3.1] at hc; exact Bool.noConfusion hc.2)]
    constructor
    · intro hc
      exact absurd hc.2 (lt_irrefl 0)
    · intro hc
      rw [h3.1] at hc
      exact Bool.noConfusion hc.2
  · rw [if_neg h3]
    unfold rule4Row
    by_cases h4 : r.available_quantity = 0 ∧ r.out_of_stock = false
    · rw [if_pos h4]
      constructor
      · intro hc
        exact absurd (h4.1 ▸ hc.2) (lt_irrefl 0)
      · intro hc
        exact Bool.noConfusion hc.2
    · rw [if_neg h4]
      exact ⟨h3, h4⟩

/-- Every row of the Rule Engine's output is the repair of an input row that
survived rule 1. -/
theorem mem_validate_exists (df : List Row) (r : Row)
    (hr : r ∈ (validate_business_rules df).1) :
    ∃ s ∈ df, s.discounted_selling_price ≤ s.mrp ∧ r = repairRow s := by
  rw [validate_fst_eq] at hr
  obtain ⟨s, hs, rfl⟩ := List.mem_map.mp hr
  obtain ⟨hsd, hsp⟩ := List.mem_filter.mp hs
  exact ⟨s, hsd, of_decide_eq_true hsp, rfl⟩

/-- Every output row of the Rule Engine satisfies: rule 1's predicate, rule 2's
tolerance, and the negations of rules 3's and 4's trigger conditions. -/
theorem mem_validate_clean (df : List Row) (r : Row)
    (hr : r ∈ (validate_business_rules df).1) :
    r.discounted_selling_price ≤ r.mrp ∧
    |r.discount_percent - calcDiscount r| ≤ 1 ∧
    ¬(r.out_of_stock = true ∧ r.available_quantity > 0) ∧
    ¬(r.available_quantity = 0 ∧ r.out_of_stock = false) := by
  obtain ⟨s, _, hle, rfl⟩ := mem_validate_exists df r hr
  refine ⟨?_, ?_, ?_⟩
  · rw [repairRow_mrp, repairRow_dsp]
    exact hle
  · rw [repairRow_dp, calcDiscount_repairRow]
    exact rule2Row_discount_close s
  · exact stock_stable (rule2Row s)

/-- C6: the rows of the Rule Engine's output are exactly the input rows with
`mrp >= discounted_selling_price`, in their original relative order, each
transformed by the in-place field repairs of rules 2-4; those repairs never
change `category`, `name`, `mrp`, `discounted_selling_price`,
`weight_in_gms` or `quantity`, and no rule adds or reorders rows. -/
theorem c6_only_rule1_removes_rows (df : List Row) :
    (validate_business_rules df).1 =
      (df.filter fun r => decide (r.discounted_selling_price ≤ r.mrp)).map repairRow ∧
    ∀ r : Row, (repairRow r).category = r.category ∧ (repairRow r).name = r.name ∧
      (repairRow r).mrp = r.mrp ∧
      (repairRow r).discounted_selling_price = r.discounted_selling_price ∧
      (repairRow r).weight_in_gms = r.weight_in_gms ∧
      (repairRow r).quantity = r.quantity := by
  refine ⟨validate_fst_eq df, fun r => ?_⟩
  obtain ⟨d, a, o, h⟩ := repairRow_shape r
  rw [h]
  exact ⟨rfl, rfl, rfl, rfl, rfl, rfl⟩

theorem repairRow_aq_cases (r : Row) :
    (repairRow r).available_quantity = r.available_quantity ∨
    (repairRow r).available_quantity = 0 := by
  obtain ⟨o, h4⟩ := rule4Row_shape (rule3Row (rule2Row r))
  rw [repairRow, h4]
  unfold rule3Row
  split
  · right
    rfl
  · left
    exact rule2Row_aq r

/-- On a table where no rule's trigger condition holds on any row, the Rule
Engine returns the table unchanged with no messages. -/
theorem validate_eq_of_clean (T : List Row)
    (h1 : ∀ r ∈ T, ¬(r.mrp < r.discounted_selling_price))
    (h2 : ∀ r ∈ T, ¬(|r.discount_percent - calcDiscount r| > 1))
    (h3 : ∀ r ∈ T, ¬(r.out_of_stock = true ∧ r.available_quantity > 0))
    (h4 : ∀ r ∈ T, ¬(r.available_quantity = 0 ∧ r.out_of_stock = false)) :
    validate_business_rules T = (T, []) := by
  have hf1 : (T.filter fun r => decide (r.mrp < r.discounted_selling_price)) = [] := by
    rw [List.filter_eq_nil_iff]
    intro a ha
    simpa using h1 a ha
  have hf2 : (T.filter fun r => !decide (r.mrp < r.discounted_selling_price)) = T := by
    rw [List.filter_eq_self]
    intro a ha
    simp [h1 a ha]
  have hfm : (T.filter fun r => decide (|r.discount_percent - calcDiscount r| > 1)) = [] := by
    rw [List.filter_eq_nil_iff]
    intro a ha
    simpa using h2 a ha
  have hm2 : T.map rule2Row = T := by
    have he : ∀ a ∈ T, rule2Row a = a := fun a ha => by
      unfold rule2Row
      exact if_neg (h2 a ha)
    rw [List.map_congr_left he]
    simp
  have hf3 : (T.filter fun r => r.out_of_stock && decide (r.available_quantity > 0)) = [] := by
    rw [List.filter_eq_nil_iff]
    intro a ha
    have := h3 a ha
    simp only [not_and] at this
    cases hb : a.out_of_stock
    · simp
    · simpa using this hb
  have hm3 : T.map rule3Row = T := by
    have he : ∀ a ∈ T, rule3Row a = a := fun a ha => by
      unfold rule3Row
      exact if_neg (h3 a ha)
    rw [List.map_congr_left he]
    simp
  have hf4 : (T.filter fun r => decide (r.available_quantity = 0) && !r.out_of_stock) = [] := by
    rw [List.filter_eq_nil_iff]
    intro a ha
    have := h4 a ha
    simp only [not_and] at this
    cases hb : a.out_of_stock <;> by_cases hq : a.available_quantity = 0 <;>
      simp [hb, hq] at this ⊢
  have hm4 : T.map rule4Row = T := by
    have he : ∀ a ∈ T, rule4Row a = a := fun a ha => by
      unfold rule4Row
      exact if_neg (h4 a ha)
    rw [List.map_congr_left he]
    simp
  unfold validate_business_rules
  simp only [hf1, hf2, hfm, hm2, hf3, hm3, hf4, hm4]
  simp

/-- A row in which the stock flag contradicts a negative quantity: rules 3 and
4 both leave it alone, so the engine emits it with `out_of_stock = true` and
`available_quantity = -1`. -/
def rowNegStock : Row :=
  ⟨"Fruits & Vegetables", "Bad Apple", 100, 50, -1, 50, 100, true, 1⟩

theorem validate_rowNegStock :
    validate_business_rules [rowNegStock] = ([rowNegStock], []) := by
  apply validate_eq_of_clean <;>
    · intro r hr
      rw [List.mem_singleton] at hr
      subst hr
      norm_num [rowNegStock, calcDiscount]

/-- C1 fails as stated: on the input table `[rowNegStock]` the Rule Engine
keeps the row unchanged, and the surviving row violates
`out_of_stock == (available_quantity == 0)` because its quantity is negative
(neither rule 3 nor rule 4 fires on `available_quantity = -1`). -/
theorem c1_counterexample :
    ¬ ∀ r ∈ (validate_business_rules [rowNegStock]).1,
        r.discounted_selling_price ≤ r.mrp ∧
        |r.discount_percent - 100 * (r.mrp - r.discounted_selling_price) / r.mrp| ≤ 1 ∧
        (r.out_of_stock = true ↔ r.available_quantity = 0) := by
  intro h
  have hmem : rowNegStock ∈ (validate_business_rules [rowNegStock]).1 := by
    rw [validate_rowNegStock]
    exact List.mem_singleton_self _
  have hq : rowNegStock.available_quantity = 0 := (h rowNegStock hmem).2.2.mp rfl
  rw [show rowNegStock.available_quantity = (-1 : ℚ) from rfl] at hq
  norm_num at hq

/-- C1 (amended): for every input table whose rows have `mrp > 0` (so the
calculated discount is a genuine quotient) and `available_quantity >= 0`,
every row surviving `validate_business_rules` satisfies
`mrp >= discounted_selling_price`,
`|discount_percent - 100*(mrp - discounted_selling_price)/mrp| <= 1`, and
`out_of_stock == (available_quantity == 0)`. -/
theorem c1_invariants (df : List Row)
    (hm : ∀ r ∈ df, 0 < r.mrp) (ha : ∀ r ∈ df, 0 ≤ r.available_quantity) :
    ∀ r ∈ (validate_business_rules df).1,
      r.discounted_selling_price ≤ r.mrp ∧
      |r.discount_percent - 100 * (r.mrp - r.discounted_selling_price) / r.mrp| ≤ 1 ∧
      (r.out_of_stock = true ↔ r.available_quantity = 0) := by
  intro r hr
  obtain ⟨hle, htol, hns1, hns2⟩ := mem_validate_clean df r hr
  refine ⟨hle, ?_, ?_⟩
  · have hcalc : 100 * (r.mrp - r.discounted_selling_price) / r.mrp = calcDiscount r := by
      unfold calcDiscount
      ring
    rw [hcalc]
    exact htol
  · obtain ⟨s, hs, hsle, heq⟩ := mem_validate_exists df r hr
    have haq : 0 ≤ r.available_quantity := by
      rcases repairRow_aq_cases s with hc | hc
      · rw [heq, hc]
        exact ha s hs
      · rw [heq, hc]
    constructor
    · intro ho
      rcases lt_or_eq_of_le haq with hlt | h0
      · exact absurd ⟨ho, hlt⟩ hns1
      · exact h0.symm
    · intro h0
      cases hoos : r.out_of_stock with
      | false => exact absurd ⟨h0, hoos⟩ hns2
      | true => rfl

/-- A one-row well-formed table: positive prices, stale discount percent,
zero quantity with a stale in-stock flag. -/
def dfGood : List Row := [⟨"Snacks", "Chips", 1000, 5, 0, 800, 100, false, 1⟩]

theorem c1_invariants_witness :
    (∀ r ∈ dfGood, 0 < r.mrp) ∧ (∀ r ∈ dfGood, 0 ≤ r.available_quantity) ∧
    ∀ r ∈ (validate_business_rules dfGood).1,
      r.discounted_selling_price ≤ r.mrp ∧
      |r.discount_percent - 100 * (r.mrp - r.discounted_selling_price) / r.mrp| ≤ 1 ∧
      (r.out_of_stock = true ↔ r.available_quantity = 0) :=
  have hm : ∀ r ∈ dfGood, 0 < r.mrp := by
    intro r hr
    simp only [dfGood, List.mem_singleton] at hr
    subst hr
    norm_num [dfGood]
  have ha : ∀ r ∈ dfGood, 0 ≤ r.available_quantity := by
    intro r hr
    simp only [dfGood, List.mem_singleton] at hr
    subst hr
    norm_num [dfGood]
  ⟨hm, ha, c1_invariants dfGood hm ha⟩

/-- C5: the Rule Engine is idempotent — applied to its own output it returns
the identical table and an empty message list. -/
theorem c5_idempotent (df : List Row) :
    validate_business_rules (validate_business_rules df).1 =
      ((validate_business_rules df).1, []) := by
  apply validate_eq_of_clean
  · intro r hr
    exact not_lt.mpr (mem_validate_clean df r hr).1
  · intro r hr
    exact not_lt.mpr (mem_validate_clean df r hr).2.1
  · intro r hr
    exact (mem_validate_clean df r hr).2.2.1
  · intro r hr
    exact (mem_validate_clean df r hr).2.2.2

/-- Running the engine on a single row that passes rule 1, triggers rule 2,
and triggers neither stock rule: the row is kept (repaired), with exactly the
rule-2 message. -/
theorem validate_singleton_fix2 (r : Row)
    (h1 : ¬(r.mrp < r.discounted_selling_price))
    (h2 : |r.discount_percent - calcDiscount r| > 1)
    (h3 : ¬((rule2Row r).out_of_stock = true ∧ (rule2Row r).available_quantity > 0))
    (h4 : ¬((rule3Row (rule2Row r)).available_quantity = 0 ∧
        (rule3Row (rule2Row r)).out_of_stock = false)) :
    validate_business_rules [r] =
      ([repairRow r], ["Fixed 1 products with incorrect discount percentages"]) := by
  have hb3 : ((rule2Row r).out_of_stock && decide ((rule2Row r).available_quantity > 0)) = false := by
    cases hb : (rule2Row r).out_of_stock
    · simp
    · simp only [not_and] at h3
      simp [h3 hb]
  have hb4 : (decide ((rule3Row (rule2Row r)).available_quantity = 0) &&
      !(rule3Row (rule2Row r)).out_of_stock) = false := by
    by_cases hq : (rule3Row (rule2Row r)).available_quantity = 0
    · have hoos := not_and.mp h4 hq
      cases hb : (rule3Row (rule2Row r)).out_of_stock
      · exact absurd hb hoos
      · simp [hb]
    · simp [hq]
  unfold validate_business_rules
  simp only [List.filter_cons, List.filter_nil, List.map_cons, List.map_nil]
  simp [h1, h2, hb3, hb4, repairRow]
  rfl

/-- Scenario B of the spec: `{mrp:1000, discounted_selling_price:800,
discount_percent:5}`, calculated discount 20. -/
def rowScenarioB : Row := ⟨"Snacks", "Chips", 1000, 5, 5, 800, 100, false, 1⟩

theorem calcDiscount_rowScenarioB : calcDiscount rowScenarioB = 20 := by
  unfold calcDiscount rowScenarioB
  norm_num

theorem roundHalfEven_twenty : roundHalfEven (20 : ℚ) = 20 := by
  unfold roundHalfEven
  norm_num

theorem rule2Row_rowScenarioB :
    rule2Row rowScenarioB = { rowScenarioB with discount_percent := 20 } := by
  unfold rule2Row
  rw [calcDiscount_rowScenarioB, roundHalfEven_twenty,
    if_pos (by norm_num [rowScenarioB] : |rowScenarioB.discount_percent - (20 : ℚ)| > 1)]
  norm_num

/-- C9: whenever the declared discount differs from the calculated discount by
more than one percentage point, rule 2 overwrites `discount_percent` with the
rounded calculated discount; rule 2 never removes a row; and on the spec's
Scenario B row `{mrp:1000, discounted_selling_price:800, discount_percent:5}`
the engine keeps the row with `discount_percent` set to 20. -/
theorem c9_rule2_overwrites :
    (∀ r : Row, |r.discount_percent - calcDiscount r| > 1 →
        (rule2Row r).discount_percent = ((roundHalfEven (calcDiscount r) : ℤ) : ℚ)) ∧
    (∀ df : List Row, (df.map rule2Row).length = df.length) ∧
    validate_business_rules [rowScenarioB] =
      ([{ rowScenarioB with discount_percent := 20 }],
        ["Fixed 1 products with incorrect discount percentages"]) := by
  refine ⟨fun r h => ?_, fun df => List.length_map df rule2Row, ?_⟩
  · unfold rule2Row
    rw [if_pos h]
  · have h1 : ¬(rowScenarioB.mrp < rowScenarioB.discounted_selling_price) := by
      norm_num [rowScenarioB]
    have h2 : |rowScenarioB.discount_percent - calcDiscount rowScenarioB| > 1 := by
      rw [calcDiscount_rowScenarioB]
      norm_num [rowScenarioB]
    have h3 : ¬((rule2Row rowScenarioB).out_of_stock = true ∧
        (rule2Row rowScenarioB).available_quantity > 0) := by
      rw [rule2Row_rowScenarioB]
      simp [rowScenarioB]
    have h34 : rule3Row (rule2Row rowScenarioB) = { rowScenarioB with discount_percent := 20 } := by
      rw [rule2Row_rowScenarioB]
      unfold rule3Row
      rw [if_neg (by simp [rowScenarioB])]
    have h4 : ¬((rule3Row (rule2Row rowScenarioB)).available_quantity = 0 ∧
        (rule3Row (rule2Row rowScenarioB)).out_of_stock = false) := by
      rw [h34]
      norm_num [rowScenarioB]
    rw [validate_singleton_fix2 rowScenarioB h1 h2 h3 h4]
    rw [show repairRow rowScenarioB = { rowScenarioB with discount_percent := 20 } from by
      unfold repairRow
      rw [h34]
      unfold rule4Row
      rw [if_neg (by norm_num [rowScenarioB])]]

theorem c9_witness :
    |rowScenarioB.discount_percent - calcDiscount rowScenarioB| > 1 ∧
    (rule2Row rowScenarioB).discount_percent =
      ((roundHalfEven (calcDiscount rowScenarioB) : ℤ) : ℚ) :=
  have h : |rowScenarioB.discount_percent - calcDiscount rowScenarioB| > 1 := by
    rw [calcDiscount_rowScenarioB]
    norm_num [rowScenarioB]
  ⟨h, c9_rule2_overwrites.1 rowScenarioB h⟩

/-! ## Normalizer (`ZeptoETLPipeline.transform_data`)

A raw CSV row is embedded after column rename and lenient coercion
(`pd.to_numeric(..., errors='coerce')`, the `out_of_stock` literal map):
numeric cells are `Option ℚ` (`none` = `NaN` from a bad or empty cell),
`out_of_stock` is `Option Bool`.  `category`/`name` pass through
`astype(str).str.strip()` before the essential-column `dropna`, so they are
never null there; they are embedded as plain strings.  Pandas comparisons
against `NaN` are `false`, giving the `opt*` comparison functions. -/

def optGtQ (x : Option ℚ) (c : ℚ) : Bool :=
  match x with
  | some v => decide (v > c)
  | none => false

def optGeQ (x : Option ℚ) (c : ℚ) : Bool :=
  match x with
  | some v => decide (v ≥ c)
  | none => false

def optLeQ (x : Option ℚ) (c : ℚ) : Bool :=
  match x with
  | some v => decide (v ≤ c)
  | none => false

structure RawRow where
  category : String
  name : String
  mrp : Option ℚ
  discount_percent : Option ℚ
  available_quantity : Option ℚ
  discounted_selling_price : Option ℚ
  weight_in_gms : Option ℚ
  out_of_stock : Option Bool
  quantity : Option ℚ
deriving DecidableEq, Repr

/-- `transformed_df[col].astype(str).str.strip()` for the text columns. -/
def trimRow (r : RawRow) : RawRow :=
  { r with category := r.category.trim, name := r.name.trim }

/-- The `fillna` defaults of `transform_data` (`available_quantity -> 0`,
`weight_in_gms -> 0`, `quantity -> 1`, `out_of_stock -> False`); the
price/discount fields are non-missing on every row that reaches this point. -/
def fillRow (r : RawRow) : Row :=
  { category := r.category
    name := r.name
    mrp := r.mrp.getD 0
    discount_percent := r.discount_percent.getD 0
    available_quantity := r.available_quantity.getD 0
    discounted_selling_price := r.discounted_selling_price.getD 0
    weight_in_gms := r.weight_in_gms.getD 0
    out_of_stock := r.out_of_stock.getD false
    quantity := r.quantity.getD 1 }

/-- `ZeptoETLPipeline.transform_data`, from the text-cleaning step on: trim
text, drop rows with missing `mrp`/`discounted_selling_price` (the
essential-column `dropna`; `category`/`name` are never null after
`astype(str)`), keep positive prices, keep `0 <= discount_percent <= 100`
(`NaN` fails both comparisons), then fill defaults. -/
def transform_data (rows : List RawRow) : List Row :=
  let t1 := rows.map trimRow
  let t2 := t1.filter fun r => r.mrp.isSome && r.discounted_selling_price.isSome
  let t3 := t2.filter fun r => optGtQ r.mrp 0 && optGtQ r.discounted_selling_price 0
  let t4 := t3.filter fun r => optGeQ r.discount_percent 0 && optLeQ r.discount_percent 100
  t4.map fillRow

/-- The three successive row filters of `transform_data`, composed. -/
def keepRaw (r : RawRow) : Bool :=
  (optGeQ r.discount_percent 0 && optLeQ r.discount_percent 100) &&
  ((optGtQ r.mrp 0 && optGtQ r.discounted_selling_price 0) &&
    (r.mrp.isSome && r.discounted_selling_price.isSome))

theorem transform_data_eq (rows : List RawRow) :
    transform_data rows = ((rows.map trimRow).filter keepRaw).map fillRow := by
  unfold transform_data
  simp only [List.filter_filter]
  rfl

theorem keepRaw_iff (r : RawRow) :
    keepRaw r = true ↔
      (∃ m, r.mrp = some m ∧ 0 < m) ∧
      (∃ s, r.discounted_selling_price = some s ∧ 0 < s) ∧
      (∃ d, r.discount_percent = some d ∧ 0 ≤ d ∧ d ≤ 100) := by
  unfold keepRaw optGtQ optGeQ optLeQ
  rcases hm : r.mrp with _ | m <;> rcases hs : r.discounted_selling_price with _ | s <;>
    rcases hd : r.discount_percent with _ | d <;> simp [hm, hs, hd] <;> tauto

/-- A row with category, name and positive prices present but
`discount_percent` missing after lenient parsing. -/
def rawMissingDiscount : RawRow :=
  ⟨"Fruits & Vegetables", "Apple", some 100, none, some 5, some 50, some 10,
    some false, some 1⟩

/-- C2 fails as stated: this row has category and name present, `mrp = 100`
and `discounted_selling_price = 50` both positive, and a missing
`discount_percent` — yet `transform_data` drops it, because the pandas
comparisons `NaN >= 0` and `NaN <= 100` are both false in the discount-range
filter. -/
theorem c2_counterexample :
    (∃ m, rawMissingDiscount.mrp = some m ∧ 0 < m) ∧
    (∃ s, rawMissingDiscount.discounted_selling_price = some s ∧ 0 < s) ∧
    rawMissingDiscount.discount_percent = none ∧
    transform_data [rawMissingDiscount] = [] := by
  refine ⟨⟨100, rfl, by norm_num⟩, ⟨50, rfl, by norm_num⟩, rfl, ?_⟩
  rw [transform_data_eq]
  have hk : keepRaw (trimRow rawMissingDiscount) = false := by
    unfold keepRaw optGeQ rawMissingDiscount trimRow
    simp
  simp [hk]

/-- C2 (amended): a parsed row survives `transform_data` iff its `mrp` and
`discounted_selling_price` are present and positive AND its
`discount_percent` is present with a numeric value in `[0, 100]`; in
particular a row with missing `discount_percent` is dropped by the
discount-range filter, not kept. -/
theorem c2_discount_filter (r : RawRow) :
    transform_data [r] ≠ [] ↔
      (∃ m, r.mrp = some m ∧ 0 < m) ∧
      (∃ s, r.discounted_selling_price = some s ∧ 0 < s) ∧
      (∃ d, r.discount_percent = some d ∧ 0 ≤ d ∧ d ≤ 100) := by
  rw [transform_data_eq]
  have hkt : keepRaw (trimRow r) = keepRaw r := rfl
  by_cases hk : keepRaw r = true
  · simp only [List.map_cons, List.map_nil, List.filter_cons, List.filter_nil, hkt, hk]
    simp only [if_true]
    constructor
    · intro _
      exact (keepRaw_iff r).mp hk
    · intro _
      simp
  · have hk' : keepRaw r = false := by
      revert hk
      cases keepRaw r <;> simp
    simp only [List.map_cons, List.map_nil, List.filter_cons, List.filter_nil, hkt, hk']
    simp only [Bool.false_eq_true, if_false, List.map_nil, ne_eq, not_true_eq_false,
      false_iff]
    intro hc
    exact hk ((keepRaw_iff r).mpr hc)

/-! ## Outlier Detector (`DataProcessor.detect_outliers`) -/

/-- Insertion of one value into a sorted list; building block of the sort that
`Series.quantile` performs internally. -/
def insertSorted (x : ℚ) : List ℚ → List ℚ
  | [] => [x]
  | y :: ys => if x ≤ y then x :: y :: ys else y :: insertSorted x ys

def sortQ (xs : List ℚ) : List ℚ := xs.foldr insertSorted []

/-- `Series.quantile(q)` with pandas' default linear interpolation: on the
sorted values `s` of length `n`, at position `h = q*(n-1)`, the value
`s[lo] + (h - lo) * (s[hi] - s[lo])` with `lo = ⌊h⌋` and `hi` the next index
(clamped to the end). -/
def percentile (xs : List ℚ) (q : ℚ) : ℚ :=
  let s := sortQ xs
  let n := s.length
  let h := q * ((n : ℚ) - 1)
  let lo := (⌊h⌋).toNat
  let hi := min (lo + 1) (n - 1)
  s.getD lo 0 + (h - (⌊h⌋ : ℚ)) * (s.getD hi 0 - s.getD lo 0)

/-- `lower_bound = Q1 - 1.5 * IQR` of the `iqr` branch. -/
def lowerBound (xs : List ℚ) : ℚ :=
  percentile xs 0.25 - 1.5 * (percentile xs 0.75 - percentile xs 0.25)

/-- `upper_bound = Q3 + 1.5 * IQR` of the `iqr` branch. -/
def upperBound (xs : List ℚ) : ℚ :=
  percentile xs 0.75 + 1.5 * (percentile xs 0.75 - percentile xs 0.25)

/-- One entry of the `iqr` mask:
`(df[column] < lower_bound) | (df[column] > upper_bound)`. -/
def iqrOutlier (xs : List ℚ) (x : ℚ) : Bool :=
  decide (x < lowerBound xs) || decide (x > upperBound xs)

/-- `Series.mean()`: `NaN` on an empty column. -/
def pmean (xs : List ℚ) : Option ℚ :=
  if xs.length = 0 then none else some (xs.sum / xs.length)

/-- The square of `Series.std()` (sample variance, `ddof=1`); `NaN` (`none`)
when fewer than two values, exactly as pandas' `std`. -/
def pvarSample (xs : List ℚ) : Option ℚ :=
  if xs.length < 2 then none
  else some ((xs.map fun x => (x - xs.sum / xs.length) ^ 2).sum / ((xs.length : ℚ) - 1))

/-- NaN-propagating float division: a `NaN` or zero denominator yields `NaN`
(`0/0` and `x/0` on this data path produce `NaN`/`inf` never satisfying the
`> 3` comparison below, and the numerator is `0` whenever the variance is). -/
def nanDiv (a : ℚ) (b : Option ℚ) : Option ℚ :=
  match b with
  | none => none
  | some y => if y = 0 then none else some (a / y)

/-- A comparison against `NaN` is false, as in numpy. -/
def nanGt (a : Option ℚ) (c : ℚ) : Bool :=
  match a with
  | some v => decide (v > c)
  | none => false

/-- The squared z-score `((x - mean) / std)^2` of the `zscore` branch,
tracked with NaN propagation.  Squaring avoids the irrational square root in
`std`: for a real positive `std`, `|x - mean|/std > 3` iff this value `> 9`,
and a zero-variance column makes both `NaN`. -/
def zscoreSq (xs : List ℚ) (x : ℚ) : Option ℚ :=
  nanDiv ((x - xs.sum / xs.length) ^ 2) (pvarSample xs)

/-- One entry of the `zscore` mask: `np.abs((x - mean) / std) > 3`. -/
def zscoreOutlier (xs : List ℚ) (x : ℚ) : Bool :=
  nanGt (zscoreSq xs x) 9

/-- `DataProcessor.detect_outliers` on one numeric column. -/
def detect_outliers (xs : List ℚ) (method : String) : Except String (List Bool) :=
  if method = "iqr" then Except.ok (xs.map (iqrOutlier xs))
  else if method = "zscore" then Except.ok (xs.map (zscoreOutlier xs))
  else Except.error "Method must be 'iqr' or 'zscore'"

/-- Nine zeros and a one: both quartiles are 0, so `Q3 + 1.5*IQR = 0`; the
column contains the value exactly at that bound (0) and a value one unit
above it (1). -/
def xsBoundary : List ℚ := [0, 0, 0, 0, 0, 0, 0, 0, 0, 1]

/-- Evaluation scheme for `percentile` from the values of its intermediate
quantities. -/
theorem percentile_eval (xs s : List ℚ) (q h : ℚ) (k : ℤ) (lo hi : ℕ) (a b : ℚ)
    (hs : sortQ xs = s)
    (hh : q * ((s.length : ℚ) - 1) = h)
    (hk : ⌊h⌋ = k)
    (hlo : k.toNat = lo)
    (hhi : min (lo + 1) (s.length - 1) = hi)
    (ha : s.getD lo 0 = a) (hb : s.getD hi 0 = b) :
    percentile xs q = a + (h - (k : ℚ)) * (b - a) := by
  simp only [percentile]
  rw [hs, hh, hk, hlo, hhi, ha, hb]

theorem percentile_xsBoundary_q1 : percentile xsBoundary 0.25 = 0 := by
  have h := percentile_eval xsBoundary [0, 0, 0, 0, 0, 0, 0, 0, 0, 1] 0.25 (9/4) 2 2 3 0 0
    rfl (by norm_num) (by norm_num) rfl rfl rfl rfl
  rw [h]
  norm_num

theorem percentile_xsBoundary_q3 : percentile xsBoundary 0.75 = 0 := by
  have h := percentile_eval xsBoundary [0, 0, 0, 0, 0, 0, 0, 0, 0, 1] 0.75 (27/4) 6 6 7 0 0
    rfl (by norm_num) (by norm_num) rfl rfl rfl rfl
  rw [h]
  norm_num

theorem upperBound_xsBoundary : upperBound xsBoundary = 0 := by
  unfold upperBound
  rw [percentile_xsBoundary_q3, percentile_xsBoundary_q1]
  norm_num

theorem lowerBound_xsBoundary : lowerBound xsBoundary = 0 := by
  unfold lowerBound
  rw [percentile_xsBoundary_q3, percentile_xsBoundary_q1]
  norm_num

/-- C7: the `iqr` method flags a value as an outlier iff it lies strictly
below `Q1 - 1.5*IQR` or strictly above `Q3 + 1.5*IQR`; on the concrete column
`xsBoundary` the upper bound is 0, the value exactly at the bound is not
flagged, the value one unit above it is, and `detect_outliers` returns
exactly that mask. -/
theorem c7_iqr_boundary :
    (∀ (xs : List ℚ) (x : ℚ),
        iqrOutlier xs x = true ↔
          x < percentile xs 0.25 - 1.5 * (percentile xs 0.75 - percentile xs 0.25) ∨
          x > percentile xs 0.75 + 1.5 * (percentile xs 0.75 - percentile xs 0.25)) ∧
    upperBound xsBoundary = 0 ∧
    iqrOutlier xsBoundary 0 = false ∧
    iqrOutlier xsBoundary 1 = true ∧
    detect_outliers xsBoundary "iqr" =
      Except.ok [false, false, false, false, false, false, false, false, false, true] := by
  have hgen : ∀ (xs : List ℚ) (x : ℚ),
      iqrOutlier xs x = true ↔
        x < percentile xs 0.25 - 1.5 * (percentile xs 0.75 - percentile xs 0.25) ∨
        x > percentile xs 0.75 + 1.5 * (percentile xs 0.75 - percentile xs 0.25) := by
    intro xs x
    unfold iqrOutlier lowerBound upperBound
    simp
  have h0 : iqrOutlier xsBoundary 0 = false := by
    unfold iqrOutlier
    rw [lowerBound_xsBoundary, upperBound_xsBoundary]
    norm_num
  have h1 : iqrOutlier xsBoundary 1 = true := by
    unfold iqrOutlier
    rw [lowerBound_xsBoundary, upperBound_xsBoundary]
    norm_num
  refine ⟨hgen, upperBound_xsBoundary, h0, h1, ?_⟩
  unfold detect_outliers
  rw [if_pos rfl]
  have hmap : xsBoundary.map (iqrOutlier xsBoundary) =
      [iqrOutlier xsBoundary 0, iqrOutlier xsBoundary 0, iqrOutlier xsBoundary 0,
        iqrOutlier xsBoundary 0, iqrOutlier xsBoundary 0, iqrOutlier xsBoundary 0,
        iqrOutlier xsBoundary 0, iqrOutlier xsBoundary 0, iqrOutlier xsBoundary 0,
        iqrOutlier xsBoundary 1] := rfl
  rw [hmap, h0, h1]

theorem sum_const (xs : List ℚ) (c : ℚ) (h : ∀ x ∈ xs, x = c) :
    xs.sum = c * xs.length := by
  induction xs with
  | nil => simp
  | cons y ys ih =>
    have hy : y = c := h y (List.mem_cons_self _ _)
    have hys : ∀ x ∈ ys, x = c := fun x hx => h x (List.mem_cons_of_mem _ hx)
    rw [List.sum_cons, hy, ih hys, List.length_cons]
    push_cast
    ring

theorem mean_const (xs : List ℚ) (c : ℚ) (hne : xs ≠ []) (h : ∀ x ∈ xs, x = c) :
    xs.sum / xs.length = c := by
  rw [sum_const xs c h]
  have hlen : (xs.length : ℚ) ≠ 0 := by
    have : xs.length ≠ 0 := fun hc => hne (List.length_eq_zero.mp hc)
    exact_mod_cast this
  field_simp

/-- A column of at least two equal values has sample variance exactly 0. -/
theorem pvarSample_const_eq (xs : List ℚ) (c : ℚ) (h : ∀ x ∈ xs, x = c)
    (h2 : 2 ≤ xs.length) : pvarSample xs = some 0 := by
  unfold pvarSample
  rw [if_neg (by omega)]
  have hne : xs ≠ [] := by
    intro hc
    rw [hc] at h2
    simp at h2
  have hmean : xs.sum / xs.length = c := mean_const xs c hne h
  have hmap : (xs.map fun x => (x - xs.sum / xs.length) ^ 2) = xs.map fun _ => (0 : ℚ) := by
    apply List.map_congr_left
    intro x hx
    rw [hmean, h x hx]
    ring
  rw [hmap]
  congr 1
  simp

/-- On an all-equal column every z-score is `NaN`: with one value the std is
already `NaN`; with two or more the variance is 0 and the division produces
`NaN` — nothing guards it. -/
theorem zscoreSq_const_none (xs : List ℚ) (c : ℚ) (h : ∀ x ∈ xs, x = c) (x : ℚ) :
    zscoreSq xs x = none := by
  unfold zscoreSq nanDiv
  by_cases h2 : xs.length < 2
  · unfold pvarSample
    rw [if_pos h2]
  · rw [pvarSample_const_eq xs c h (by omega)]
    simp

/-- C4 fails as stated: on the all-equal column `[5, 5, 5]` the variance (the
squared std denominator) is exactly 0 yet the z-score computation still
performs the division — every z-score comes out `NaN` (`none`), which no
explicit guard prevents; the mask is all-false only because a comparison
against `NaN` is false. -/
theorem c4_counterexample :
    pvarSample [5, 5, 5] = some 0 ∧
    zscoreSq [5, 5, 5] 5 = none ∧
    detect_outliers [5, 5, 5] "zscore" = Except.ok [false, false, false] := by
  have hconst : ∀ x ∈ ([5, 5, 5] : List ℚ), x = 5 := by
    intro x hx
    simp only [List.mem_cons, List.not_mem_nil, or_false] at hx
    rcases hx with h | h | h <;> exact h
  refine ⟨pvarSample_const_eq [5, 5, 5] 5 hconst (by norm_num),
    zscoreSq_const_none [5, 5, 5] 5 hconst 5, ?_⟩
  unfold detect_outliers
  rw [if_neg (by decide), if_pos rfl]
  have hmap : ([5, 5, 5] : List ℚ).map (zscoreOutlier [5, 5, 5]) =
      [zscoreOutlier [5, 5, 5] 5, zscoreOutlier [5, 5, 5] 5, zscoreOutlier [5, 5, 5] 5] := rfl
  rw [hmap]
  have hz : zscoreOutlier ([5, 5, 5] : List ℚ) 5 = false := by
    unfold zscoreOutlier
    rw [zscoreSq_const_none [5, 5, 5] 5 hconst 5]
    rfl
  rw [hz]

/-- C4 (amended): for every non-empty all-equal column the zscore method
returns an all-false mask (no outliers); but the division by the standard
deviation is NOT explicitly guarded — whenever the column has at least two
entries its variance is exactly 0, the division still happens, and every
z-score is `NaN` (`none`); the all-false mask arises because `NaN > 3` is
false, not from a guard. -/
theorem c4_zscore_zero_variance (xs : List ℚ) (c : ℚ) (hne : xs ≠ [])
    (h : ∀ x ∈ xs, x = c) :
    detect_outliers xs "zscore" = Except.ok (xs.map fun _ => false) ∧
    (2 ≤ xs.length → pvarSample xs = some 0 ∧ ∀ x ∈ xs, zscoreSq xs x = none) := by
  constructor
  · unfold detect_outliers
    rw [if_neg (by decide), if_pos rfl]
    have hmask : xs.map (zscoreOutlier xs) = xs.map fun _ => false := by
      apply List.map_congr_left
      intro x _
      unfold zscoreOutlier
      rw [zscoreSq_const_none xs c h x]
      rfl
    rw [hmask]
  · intro h2
    exact ⟨pvarSample_const_eq xs c h h2,
      fun x _ => zscoreSq_const_none xs c h x⟩

theorem c4_zscore_witness :
    ([5, 5, 5] : List ℚ) ≠ [] ∧ (∀ x ∈ ([5, 5, 5] : List ℚ), x = 5) ∧
    detect_outliers [5, 5, 5] "zscore" =
      Except.ok (([5, 5, 5] : List ℚ).map fun _ => false) := by
  have hne : ([5, 5, 5] : List ℚ) ≠ [] := by simp
  have hconst : ∀ x ∈ ([5, 5, 5] : List ℚ), x = 5 := by
    intro x hx
    simp only [List.mem_cons, List.not_mem_nil, or_false] at hx
    rcases hx with h | h | h <;> exact h
  exact ⟨hne, hconst, (c4_zscore_zero_variance [5, 5, 5] 5 hne hconst).1⟩

/-! ## Currency Cleaner (`DataProcessor.clean_currency_values`)

The per-column body of the loop: strip the currency symbol and thousands
separators, parse to numeric (`errors='coerce'`: a bad cell becomes `NaN`),
then scale the whole column by 100 unless its mean exceeds 100. -/

/-- `.str.replace('₹', '').str.replace(',', '')`. -/
def stripCurrency (s : String) : String :=
  (s.toList.filter fun ch => ch ≠ '₹' ∧ ch ≠ ',').asString

/-- Digit-string value; `none` when any character is not a digit.  An empty
list is `some 0` (emptiness is ruled out by the caller where required). -/
def digitsToNat (cs : List Char) : Option ℕ :=
  if cs.all Char.isDigit then
    some (cs.foldl (fun acc ch => acc * 10 + (ch.toNat - 48)) 0)
  else none

/-- Plain decimal numeral (integer part, optional dot, fraction part). -/
def parseDec (cs : List Char) : Option ℚ :=
  let intPart := cs.takeWhile fun ch => ch ≠ '.'
  let rest := cs.dropWhile fun ch => ch ≠ '.'
  match rest with
  | [] =>
    if intPart.isEmpty then none
    else (digitsToNat intPart).map fun n => (n : ℚ)
  | _ :: frac =>
    if frac.contains '.' ∨ (intPart.isEmpty ∧ frac.isEmpty) then none
    else
      match digitsToNat intPart, digitsToNat frac with
      | some a, some b => some ((a : ℚ) + (b : ℚ) / (10 : ℚ) ^ frac.length)
      | _, _ => none

/-- `pd.to_numeric(..., errors='coerce')` on one cell: lenient decimal
parsing, `NaN` (`none`) on anything non-numeric. -/
def toNumeric (s : String) : Option ℚ :=
  match s.toList with
  | '-' :: rest => (parseDec rest).map fun q => -q
  | cs => parseDec cs

/-- `Series.mean()` with the default `skipna`: the mean of the present
values, `NaN` when there are none. -/
def optMean (col : List (Option ℚ)) : Option ℚ :=
  let xs := col.filterMap id
  if xs.length = 0 then none else some (xs.sum / xs.length)

/-- `DataProcessor.clean_currency_values`, per currency column: strip, parse,
and multiply every value by 100 unless the column mean exceeds 100 (a `NaN`
mean also fails the `> 100` test, hence also scales). -/
def clean_currency_values_col (cells : List String) : List (Option ℚ) :=
  let parsed := cells.map fun s => toNumeric (stripCurrency s)
  match optMean parsed with
  | some m => if m > 100 then parsed else parsed.map (Option.map (· * 100))
  | none => parsed.map (Option.map (· * 100))

/-- C8: after stripping and parsing a currency column, the scaling decision is
column-global on the mean: mean `<= 100` multiplies every value by 100
(missing cells staying missing), mean `> 100` leaves every value unchanged. -/
theorem c8_currency_scaling (cells : List String) (m : ℚ)
    (hm : optMean (cells.map fun s => toNumeric (stripCurrency s)) = some m) :
    clean_currency_values_col cells =
      if m ≤ 100 then
        (cells.map fun s => toNumeric (stripCurrency s)).map (Option.map (· * 100))
      else cells.map fun s => toNumeric (stripCurrency s) := by
  simp only [clean_currency_values_col]
  rw [hm]
  show (if m > 100 then cells.map fun s => toNumeric (stripCurrency s)
      else (cells.map fun s => toNumeric (stripCurrency s)).map (Option.map (· * 100))) = _
  by_cases h : m > 100
  · rw [if_pos h, if_neg (not_le.mpr h)]
  · rw [if_neg h, if_pos (not_lt.mp h)]

theorem toNumeric_cell_a : toNumeric (stripCurrency "₹40") = some ((40 : ℕ) : ℚ) := rfl

theorem toNumeric_cell_b :
    toNumeric (stripCurrency "60.5") =
      some (((60 : ℕ) : ℚ) + ((5 : ℕ) : ℚ) / (10 : ℚ) ^ 1) := rfl

theorem parsed_currency_cells :
    (["₹40", "60.5"].map fun s => toNumeric (stripCurrency s)) =
      [some 40, some (121/2)] := by
  rw [List.map_cons, List.map_cons, List.map_nil, toNumeric_cell_a, toNumeric_cell_b]
  norm_num

theorem c8_currency_witness :
    optMean (["₹40", "60.5"].map fun s => toNumeric (stripCurrency s)) = some (201/4) ∧
    clean_currency_values_col ["₹40", "60.5"] =
      (["₹40", "60.5"].map fun s => toNumeric (stripCurrency s)).map
        (Option.map (· * 100)) := by
  have hm : optMean (["₹40", "60.5"].map fun s => toNumeric (stripCurrency s)) =
      some (201/4) := by
    rw [parsed_currency_cells]
    simp only [optMean]
    rw [show List.filterMap id [some (40 : ℚ), some (121/2)] = [40, 121/2] from rfl]
    norm_num
  have h := c8_currency_scaling ["₹40", "60.5"] (201/4) hm
  rw [if_pos (by norm_num : (201/4 : ℚ) ≤ 100)] at h
  exact ⟨hm, h⟩

/-! ## Quality Reporter (`DataProcessor.generate_data_quality_report`)

The report is generated over the typed table, where no cell is null (the
report runs after cleaning, so `isnull().sum()` is 0 for every column).
Numpy scalar division `np.int64 / 0` yields `NaN` with a warning, never an
exception; Python's `int()` on a float raises `ValueError` on `NaN`.  The
`data_types` entry (`str(dtype)` per column, pure metadata that cannot fail)
is not modelled. -/

structure PriceStats where
  avg_mrp : Option ℚ
  avg_selling_price : Option ℚ
  avg_discount : Option ℚ
  max_discount : ℤ
  min_discount : ℤ
deriving Repr

structure QualityReport where
  total_rows : ℕ
  total_columns : ℕ
  missing_values : List (String × ℕ × Option ℚ)
  unique_counts : List (String × ℕ)
  outliers : List (String × ℕ × Option ℚ)
  category_distribution : List (String × ℕ)
  price_statistics : PriceStats
deriving Repr

/-- Numpy scalar true division: `x / 0` is `NaN` (plus a runtime warning),
not an exception. -/
def npDiv (a : ℚ) (b : ℕ) : Option ℚ :=
  if b = 0 then none else some (a / b)

/-- `round(x, 2)`; `NaN` passes through. -/
def round2 (x : Option ℚ) : Option ℚ :=
  x.map fun q => ((roundHalfEven (q * 100) : ℤ) : ℚ) / 100

/-- `Series.max()`: `NaN` on an empty column. -/
def listMax (xs : List ℚ) : Option ℚ :=
  match xs with
  | [] => none
  | x :: rest => some (rest.foldl max x)

/-- `Series.min()`: `NaN` on an empty column. -/
def listMin (xs : List ℚ) : Option ℚ :=
  match xs with
  | [] => none
  | x :: rest => some (rest.foldl min x)

/-- Python `int(x)` on a float: truncation toward zero, and
`ValueError: cannot convert float NaN to integer` on `NaN`. -/
def pyInt (x : Option ℚ) : Except String ℤ :=
  match x with
  | none => Except.error "cannot convert float NaN to integer"
  | some q => Except.ok (if 0 ≤ q then ⌊q⌋ else ⌈q⌉)

/-- `Series.nunique()`. -/
def nunique {α : Type} [DecidableEq α] (xs : List α) : ℕ := xs.dedup.length

/-- One entry of the outlier section: the `iqr` mask's true-count and its
percentage of the table (`0/0` giving `NaN` on an empty table). -/
def outlierEntry (name : String) (mask : List Bool) (len : ℕ) : String × ℕ × Option ℚ :=
  (name, mask.count true, round2 ((npDiv (mask.count true : ℚ) len).map (· * 100)))

/-- `DataProcessor.generate_data_quality_report`: missing-value counts and
percentages, unique counts, `iqr` outlier counts for the four numeric
columns, the category histogram (pandas additionally orders `value_counts`
by descending frequency, irrelevant on the empty tables studied here), and
price statistics, in the source's evaluation order; the `int(...)`
conversions of `max_discount`/`min_discount` can raise. -/
def generate_data_quality_report (df : List Row) : Except String QualityReport := do
  let missing := ["category", "name", "mrp", "discount_percent", "available_quantity",
    "discounted_selling_price", "weight_in_gms", "out_of_stock", "quantity"].map
    fun c => (c, 0, round2 ((npDiv 0 df.length).map (· * 100)))
  let uniq := [("category", nunique (df.map Row.category)),
    ("name", nunique (df.map Row.name)),
    ("mrp", nunique (df.map Row.mrp)),
    ("discount_percent", nunique (df.map Row.discount_percent)),
    ("available_quantity", nunique (df.map Row.available_quantity)),
    ("discounted_selling_price", nunique (df.map Row.discounted_selling_price)),
    ("weight_in_gms", nunique (df.map Row.weight_in_gms)),
    ("out_of_stock", nunique (df.map Row.out_of_stock)),
    ("quantity", nunique (df.map Row.quantity))]
  let mrpMask ← detect_outliers (df.map Row.mrp) "iqr"
  let dspMask ← detect_outliers (df.map Row.discounted_selling_price) "iqr"
  let dpMask ← detect_outliers (df.map Row.discount_percent) "iqr"
  let wMask ← detect_outliers (df.map Row.weight_in_gms) "iqr"
  let outl := [outlierEntry "mrp" mrpMask df.length,
    outlierEntry "discounted_selling_price" dspMask df.length,
    outlierEntry "discount_percent" dpMask df.length,
    outlierEntry "weight_in_gms" wMask df.length]
  let catDist := (df.map Row.category).dedup.map
    fun c => (c, (df.map Row.category).count c)
  let avgMrp := round2 (pmean (df.map Row.mrp))
  let avgSell := round2 (pmean (df.map Row.discounted_selling_price))
  let avgDisc := round2 (pmean (df.map Row.discount_percent))
  let maxD ← pyInt (listMax (df.map Row.discount_percent))
  let minD ← pyInt (listMin (df.map Row.discount_percent))
  pure ⟨df.length, 9, missing, uniq, outl, catDist, ⟨avgMrp, avgSell, avgDisc, maxD, minD⟩⟩

/-- C3 fails on the code: on the empty table (all standard catalog columns
present, zero rows) the report generator RAISES
`ValueError: cannot convert float NaN to integer` when it reaches
`int(df['discount_percent'].max())` — the max of an empty column is `NaN` —
instead of returning a report with `total_rows = 0`. -/
theorem c3_empty_report_error :
    generate_data_quality_report [] =
      Except.error "cannot convert float NaN to integer" := rfl

end Zepto
